import Mathlib

/-
  Verification of the redirect-to-cos module (src/index.js) against its
  natural-language specification.

  The module is a thin orchestration layer: it spawns a child process,
  optionally pipes its stdout through a gzip transform, and hands the
  resulting readable stream to a managed multipart upload client,
  surfacing outcomes through four asynchronous events.

  Shallow embedding:
  - A JS object is an association list of string keys and values
    (JSObject); `extend(false, target, src)` from the node-extend
    package copies every source field into the target in order,
    overwriting existing keys, and returns the (mutated) target.
  - Readable streams are modelled symbolically: a raw source, the
    stdout of a spawned process, or a stream piped through a transform.
    Value equality of the symbolic stream captures pass-by-reference.
  - The event emissions of the registered callbacks are modelled as
    lists of events produced from the outcome delivered by the
    external collaborator (the storage client's completion callback,
    or the process-spawn primitive's lifecycle signal).
-/

namespace RedirectToCOS

/-- Stream-to-stream transform collaborators; only gzip is used
    (createGzip from zlib, src/index.js line 94). -/
inductive Transform where
  | gzip
deriving DecidableEq, Repr

/-- Symbolic readable streams. `source` is an arbitrary readable stream
    supplied by a caller of uploadStreamToCOS; `childStdout pid` is the
    standard-output stream of the spawned process with identity `pid`;
    `pipe s t` is the stream obtained by `s.pipe(t)`. -/
inductive Stream where
  | source (id : Nat)
  | childStdout (pid : Nat)
  | pipe (src : Stream) (t : Transform)
deriving DecidableEq, Repr

/-- Error objects surfaced by collaborators, kept opaque up to a message. -/
structure JSErr where
  msg : String
deriving DecidableEq, Repr

/-- Values stored in the JS objects the module manipulates:
    numbers (partSize, queueSize), strings (Bucket, Key), streams (Body). -/
inductive JSValue where
  | vNum (n : Nat)
  | vStr (s : String)
  | vStream (s : Stream)
deriving DecidableEq, Repr

/-- A JavaScript object as an ordered association list of own fields. -/
abbrev JSObject := List (String × JSValue)

/-- Field lookup on a JS object (first binding wins; setField keeps
    keys unique so the list is a map). -/
def getField (o : JSObject) (k : String) : Option JSValue :=
  match o with
  | [] => none
  | (k₀, v₀) :: rest => if k₀ = k then some v₀ else getField rest k

/-- JS assignment `o[k] = v`: overwrite the existing binding in place,
    or append a new field at the end, as JS property assignment does. -/
def setField (o : JSObject) (k : String) (v : JSValue) : JSObject :=
  match o with
  | [] => [(k, v)]
  | (k₀, v₀) :: rest => if k₀ = k then (k₀, v) :: rest else (k₀, v₀) :: setField rest k v

/-- Model of `extend(false, target, src)` from the node-extend package:
    every own field of `src` is assigned into `target` in order
    (overwriting existing keys); the mutated `target` itself is returned. -/
def extendShallow (target src : JSObject) : JSObject :=
  src.foldl (fun t kv => setField t kv.1 kv.2) target

/-- Events emitted by the COSRedirector EventEmitter. -/
inductive Event where
  | upload_finish (data : JSObject)
  | upload_error (err : JSErr)
  | command_exit (code : Int)
  | command_init_error (err : JSErr)
deriving DecidableEq, Repr

/-- Result of a call to uploadStreamToCOS (src/index.js lines 93-107):
    the gzip transform created (if any), the `params` object handed to
    `s3Conn.upload`, the `options` object handed alongside it, and the
    caller's two option objects as they stand after the call (extend
    mutates its target and returns it, so these alias params/options). -/
structure UploadCall where
  gzip : Option Transform
  params : JSObject
  options : JSObject
  bucket_options_after : JSObject
  transfer_options_after : JSObject
deriving DecidableEq, Repr

/-- Embedding of uploadStreamToCOS (src/index.js lines 93-107):
    `const gzip = compressed ? createGzip() : null;
     const readStream = compressed ? stream.pipe(gzip) : stream;
     const params = extend(false, bucket_options, \x7bBody: readStream\x7d);
     const options = extend(false, transfer_options,
                            \x7bpartSize: 10*1024*1024, queueSize: 10\x7d);`
    The default value of `compressed` is false, as in the source. -/
def uploadStreamToCOS (stream : Stream) (bucket_options transfer_options : JSObject)
    (compressed : Bool := false) : UploadCall :=
  let gzip : Option Transform := if compressed then some Transform.gzip else none
  let readStream : Stream := if compressed then Stream.pipe stream Transform.gzip else stream
  let params := extendShallow bucket_options [("Body", JSValue.vStream readStream)]
  let options := extendShallow transfer_options
      [("partSize", JSValue.vNum (10 * 1024 * 1024)), ("queueSize", JSValue.vNum 10)]
  { gzip := gzip
    params := params
    options := options
    bucket_options_after := params
    transfer_options_after := options }

/-- Embedding of the completion callback passed to `s3Conn.upload`
    (src/index.js lines 100-106): when the storage client finishes it
    invokes the callback once with (err, data); the callback emits
    upload_error carrying `err` when `err != null`, else upload_finish
    carrying `data`. The returned list is the sequence of events the
    callback emits. -/
def uploadCallback (err : Option JSErr) (data : JSObject) : List Event :=
  match err with
  | some e => [Event.upload_error e]
  | none => [Event.upload_finish data]

/-- Handler registered for the child process exit signal
    (src/index.js lines 57-59): emits command_exit with the status code. -/
def exitHandler (code : Int) : Event := Event.command_exit code

/-- Handler registered for the child process error signal
    (src/index.js lines 61-63): emits command_init_error with the error. -/
def errorHandler (err : JSErr) : Event := Event.command_init_error err

/-- Lifecycle outcome delivered by the process-spawn collaborator
    (spec section 6): either the process terminates with a status code,
    or the operating environment cannot create the process and delivers
    an error object. Exactly one outcome is delivered per spawn. -/
inductive SpawnOutcome where
  | exited (code : Int)
  | spawnError (err : JSErr)
deriving DecidableEq, Repr

/-- Events emitted for a spawn invocation when the collaborator delivers
    outcome `o`: the registered handler for that lifecycle signal runs
    (src/index.js lines 56-63). -/
def processSignals (o : SpawnOutcome) : List Event :=
  match o with
  | SpawnOutcome.exited code => [exitHandler code]
  | SpawnOutcome.spawnError e => [errorHandler e]

/-- A spawned child process: its identity and the spawn arguments.
    `env_pid` is the identity the operating environment assigns. -/
structure ChildProcess where
  pid : Nat
  command : String
  args : List String
deriving DecidableEq, Repr

/-- The standard-output stream of a spawned child process. -/
def ChildProcess.stdout (p : ChildProcess) : Stream := Stream.childStdout p.pid

/-- Observable actions performed by execCommandAndSendToCOS, in program
    order. `waitExit` is an action the embedding can express (awaiting
    process termination) but that the code never performs. -/
inductive Action where
  | spawn (command : String) (args : List String)
  | onExit
  | onError
  | upload (stream : Stream) (bucket_options transfer_options : JSObject) (compressed : Bool)
  | waitExit
deriving DecidableEq, Repr

/-- Embedding of execCommandAndSendToCOS (src/index.js lines 53-66) as
    its trace of actions in program order: spawn the child, register the
    exit and error handlers, then call uploadStreamToCOS with the child's
    stdout. `env_pid` is the process identity assigned by the environment;
    the default value of `compressed` is false, as in the source. -/
def execCommandAndSendToCOS (env_pid : Nat) (command : String) (args : List String)
    (bucket_options transfer_options : JSObject) (compressed : Bool := false) :
    List Action :=
  let child_process : ChildProcess := { pid := env_pid, command := command, args := args }
  [Action.spawn command args, Action.onExit, Action.onError,
   Action.upload child_process.stdout bucket_options transfer_options compressed]

/- ------------------------------------------------------------------ -/
/- Basic lemmas about the object model.                               -/
/- ------------------------------------------------------------------ -/

/-- Looking up the key just assigned yields the assigned value. -/
theorem getField_setField_self (o : JSObject) (k : String) (v : JSValue) :
    getField (setField o k v) k = some v := by
  induction o with
  | nil => simp [setField, getField]
  | cons hd tl ih =>
      by_cases h : hd.1 = k
      · simp [setField, getField, h]
      · simp [setField, getField, h, ih]

/-- Assigning one key leaves every other key's value unchanged. -/
theorem getField_setField_ne (o : JSObject) (k k' : String) (v : JSValue)
    (h : k ≠ k') : getField (setField o k v) k' = getField o k' := by
  induction o with
  | nil => simp [setField, getField, h]
  | cons hd tl ih =>
      by_cases hk : hd.1 = k
      · simp [setField, getField, hk, h]
      · simp [setField, getField, hk, ih]

/- ------------------------------------------------------------------ -/
/- Claim theorems.                                                    -/
/- ------------------------------------------------------------------ -/

/-- C1: Evaluation of the code at the failing input
    transfer_options = \x7bpartSize: 5242880, queueSize: 4\x7d: the options
    object forwarded to the managed multipart upload carries the defaults
    partSize 10485760 and queueSize 10, not the caller-supplied values —
    `extend(false, transfer_options, defaults)` assigns the defaults last,
    so they overwrite whatever the caller supplied. -/
theorem C1_caller_transfer_options_overwritten :
    (uploadStreamToCOS (Stream.source 0) []
        [("partSize", JSValue.vNum 5242880), ("queueSize", JSValue.vNum 4)]).options
      = [("partSize", JSValue.vNum 10485760), ("queueSize", JSValue.vNum 10)] := by
  decide

/-- C2 counterexample: at bucket_options = \x7bBucket: "b"\x7d and
    transfer_options = \x7b\x7d, after uploadStreamToCOS returns the caller's
    bucket_options has gained a Body field and the caller's
    transfer_options has gained partSize and queueSize fields, so the
    claim that both objects are unchanged fails. -/
theorem C2_counterexample :
    ¬ ((uploadStreamToCOS (Stream.source 0)
          [("Bucket", JSValue.vStr "b")] []).bucket_options_after
        = [("Bucket", JSValue.vStr "b")] ∧
       (uploadStreamToCOS (Stream.source 0)
          [("Bucket", JSValue.vStr "b")] []).transfer_options_after
        = ([] : JSObject)) := by
  decide

/-- C2 (amended): uploadStreamToCOS mutates both caller objects in place:
    after the call the caller's bucket_options is exactly the old object
    with Body assigned to the (possibly gzip-piped) stream, and the
    caller's transfer_options is exactly the old object with partSize and
    queueSize assigned to the defaults; every field other than those
    assigned keeps the value it held before the call. -/
theorem C2_inputs_mutated (stream : Stream)
    (bucket_options transfer_options : JSObject) (compressed : Bool) :
    (uploadStreamToCOS stream bucket_options transfer_options compressed).bucket_options_after
      = setField bucket_options "Body"
          (JSValue.vStream (if compressed then Stream.pipe stream Transform.gzip else stream)) ∧
    (uploadStreamToCOS stream bucket_options transfer_options compressed).transfer_options_after
      = setField (setField transfer_options "partSize" (JSValue.vNum (10 * 1024 * 1024)))
          "queueSize" (JSValue.vNum 10) ∧
    (∀ k, k ≠ "Body" →
      getField ((uploadStreamToCOS stream bucket_options transfer_options
          compressed).bucket_options_after) k = getField bucket_options k) ∧
    (∀ k, k ≠ "partSize" → k ≠ "queueSize" →
      getField ((uploadStreamToCOS stream bucket_options transfer_options
          compressed).transfer_options_after) k = getField transfer_options k) := by
  refine ⟨rfl, rfl, ?_, ?_⟩
  · intro k hk
    show getField (setField bucket_options "Body" _) k = _
    exact getField_setField_ne _ _ _ _ (Ne.symm hk)
  · intro k hp hq
    show getField (setField (setField transfer_options "partSize" _) "queueSize" _) k = _
    rw [getField_setField_ne _ _ _ _ (Ne.symm hq), getField_setField_ne _ _ _ _ (Ne.symm hp)]

/-- Witness for C2 (amended) at stream = source 0,
    bucket_options = \x7bBucket: "b"\x7d, transfer_options = \x7bx: 1\x7d,
    compressed = false, checking preservation at keys Bucket and x. -/
theorem C2_inputs_mutated_witness :
    getField ((uploadStreamToCOS (Stream.source 0) [("Bucket", JSValue.vStr "b")]
        [("x", JSValue.vNum 1)] false).bucket_options_after) "Bucket"
      = getField [("Bucket", JSValue.vStr "b")] "Bucket" ∧
    getField ((uploadStreamToCOS (Stream.source 0) [("Bucket", JSValue.vStr "b")]
        [("x", JSValue.vNum 1)] false).transfer_options_after) "x"
      = getField [("x", JSValue.vNum 1)] "x" :=
  ⟨(C2_inputs_mutated (Stream.source 0) [("Bucket", JSValue.vStr "b")]
      [("x", JSValue.vNum 1)] false).2.2.1 "Bucket" (by decide),
   (C2_inputs_mutated (Stream.source 0) [("Bucket", JSValue.vStr "b")]
      [("x", JSValue.vNum 1)] false).2.2.2 "x" (by decide) (by decide)⟩

/-- C3: Whenever the storage client runs the completion callback, exactly
    one of upload_error and upload_finish is emitted: upload_error exactly
    when the error argument is non-null (carrying that error), otherwise
    upload_finish carrying the result data; never both, never neither. -/
theorem C3_exactly_one_upload_signal (err : Option JSErr) (data : JSObject) :
    (uploadCallback err data).length = 1 ∧
    ((∃ e, err = some e ∧ uploadCallback err data = [Event.upload_error e]) ∨
      (err = none ∧ uploadCallback err data = [Event.upload_finish data])) ∧
    ¬ ((∃ e, Event.upload_error e ∈ uploadCallback err data) ∧
       (∃ d, Event.upload_finish d ∈ uploadCallback err data)) := by
  cases err <;> simp [uploadCallback]

/-- C4: With compress = true a gzip transform is created and the Body
    handed to the storage client is the source stream piped through it;
    with compress = false no gzip transform is created and the Body is the
    raw source stream itself. -/
theorem C4_gzip_interposition (stream : Stream)
    (bucket_options transfer_options : JSObject) :
    (getField (uploadStreamToCOS stream bucket_options transfer_options true).params "Body"
        = some (JSValue.vStream (Stream.pipe stream Transform.gzip)) ∧
      (uploadStreamToCOS stream bucket_options transfer_options true).gzip
        = some Transform.gzip) ∧
    (getField (uploadStreamToCOS stream bucket_options transfer_options false).params "Body"
        = some (JSValue.vStream stream) ∧
      (uploadStreamToCOS stream bucket_options transfer_options false).gzip = none) := by
  refine ⟨⟨?_, rfl⟩, ⟨?_, rfl⟩⟩ <;>
    simp [uploadStreamToCOS, extendShallow, getField_setField_self]

/-- C5: The run-and-upload trace spawns the child first, then hands the
    child's own stdout stream (the same symbolic stream, i.e. by
    reference) to the upload action, and contains no wait on process
    exit: the upload is issued before the subprocess has necessarily
    finished, so consumption proceeds concurrently with execution. -/
theorem C5_spawn_then_stream_upload (env_pid : Nat) (command : String)
    (args : List String) (bucket_options transfer_options : JSObject) (compressed : Bool) :
    execCommandAndSendToCOS env_pid command args bucket_options transfer_options compressed
      = [Action.spawn command args, Action.onExit, Action.onError,
          Action.upload
            (ChildProcess.stdout { pid := env_pid, command := command, args := args })
            bucket_options transfer_options compressed] ∧
    Action.waitExit ∉
      execCommandAndSendToCOS env_pid command args bucket_options transfer_options compressed := by
  refine ⟨rfl, ?_⟩
  simp [execCommandAndSendToCOS]

/-- C6: When the caller supplies no transfer-configuration overrides
    (transfer_options has neither a partSize nor a queueSize field), the
    options forwarded to the managed multipart upload carry a part size of
    10 * 1024 * 1024 bytes and a queue size of 10. -/
theorem C6_default_transfer_options (stream : Stream)
    (bucket_options transfer_options : JSObject) (compressed : Bool)
    (hp : getField transfer_options "partSize" = none)
    (hq : getField transfer_options "queueSize" = none) :
    getField (uploadStreamToCOS stream bucket_options transfer_options compressed).options
        "partSize" = some (JSValue.vNum (10 * 1024 * 1024)) ∧
    getField (uploadStreamToCOS stream bucket_options transfer_options compressed).options
        "queueSize" = some (JSValue.vNum 10) := by
  constructor
  · show getField (setField (setField transfer_options "partSize" _) "queueSize" _)
        "partSize" = _
    rw [getField_setField_ne _ _ _ _ (by decide), getField_setField_self]
  · show getField (setField (setField transfer_options "partSize" _) "queueSize" _)
        "queueSize" = _
    rw [getField_setField_self]

/-- Witness for C6 at stream = source 0 and both option objects empty. -/
theorem C6_default_transfer_options_witness :
    getField ([] : JSObject) "partSize" = none ∧
    getField ([] : JSObject) "queueSize" = none ∧
    getField (uploadStreamToCOS (Stream.source 0) [] []).options "partSize"
      = some (JSValue.vNum (10 * 1024 * 1024)) ∧
    getField (uploadStreamToCOS (Stream.source 0) [] []).options "queueSize"
      = some (JSValue.vNum 10) :=
  ⟨rfl, rfl,
    (C6_default_transfer_options (Stream.source 0) [] [] false rfl rfl).1,
    (C6_default_transfer_options (Stream.source 0) [] [] false rfl rfl).2⟩

/-- C7: The exit signal carries the process's terminal status code and
    the spawn-failure signal carries the error object produced when the
    operating environment cannot create the process. -/
theorem C7_signal_payloads (code : Int) (err : JSErr) :
    processSignals (SpawnOutcome.exited code) = [Event.command_exit code] ∧
    processSignals (SpawnOutcome.spawnError err) = [Event.command_init_error err] :=
  ⟨rfl, rfl⟩

/-- C8: On failure the upload_error event carries exactly the error
    object produced by the storage client, and on success the
    upload_finish event carries exactly the result data object produced
    by the storage client, both forwarded unmodified. -/
theorem C8_payloads_preserved (e : JSErr) (data : JSObject) :
    uploadCallback (some e) data = [Event.upload_error e] ∧
    uploadCallback none data = [Event.upload_finish data] :=
  ⟨rfl, rfl⟩

/-- C9: For every spawn invocation exactly one of command_exit and
    command_init_error fires: a single event per delivered lifecycle
    outcome, and never one of each. -/
theorem C9_exactly_one_process_signal (o : SpawnOutcome) :
    (processSignals o).length = 1 ∧
    ((∃ code, o = SpawnOutcome.exited code ∧
        processSignals o = [Event.command_exit code]) ∨
      (∃ e, o = SpawnOutcome.spawnError e ∧
        processSignals o = [Event.command_init_error e])) ∧
    ¬ ((∃ code, Event.command_exit code ∈ processSignals o) ∧
       (∃ e, Event.command_init_error e ∈ processSignals o)) := by
  cases o <;> simp [processSignals, exitHandler, errorHandler]

/-- C10: When the compression argument is omitted, both public operations
    behave as if compress = false were supplied: no gzip transform is
    created, the raw source stream is the Body handed to the storage
    client, and the run-and-upload trace issues its upload action with
    compressed = false. -/
theorem C10_compress_defaults_false (stream : Stream) (env_pid : Nat)
    (command : String) (args : List String)
    (bucket_options transfer_options : JSObject) :
    (uploadStreamToCOS stream bucket_options transfer_options).gzip = none ∧
    getField (uploadStreamToCOS stream bucket_options transfer_options).params "Body"
      = some (JSValue.vStream stream) ∧
    execCommandAndSendToCOS env_pid command args bucket_options transfer_options
      = [Action.spawn command args, Action.onExit, Action.onError,
          Action.upload (Stream.childStdout env_pid) bucket_options transfer_options false] := by
  refine ⟨rfl, ?_, rfl⟩
  simp [uploadStreamToCOS, extendShallow, getField_setField_self]

end RedirectToCOS
